import Mathlib

/-!
Verification of the two Datadog provisioning scripts
(`scripts/create-datadog-dashboard.py` and `scripts/create-datadog-monitors.py`).

The scripts are shallowly embedded: Python dict/list/scalar literals become a
`JValue` JSON tree, an HTTP response is a `Response` record (status code, parsed
JSON body, raw body text), and every run of a submitter is summarised by a `Run`
record carrying the list of POST requests issued, the lines printed to standard
output, and either a normal result or an uncaught fault (`KeyError` from an
unguarded dictionary lookup).  The network is an oracle: each submission is
paired with the response it receives.
-/

/-- A JSON value, the shape of Python dict/list/scalar literals and of parsed
HTTP response bodies. -/
inductive JValue : Type where
  | null : JValue
  | bool : Bool → JValue
  | num : Int → JValue
  | str : String → JValue
  | arr : List JValue → JValue
  | obj : List (String × JValue) → JValue

/-- Dictionary lookup `d[k]` as a total function: `some` the first binding of
`k`, `none` when `k` is absent or the value is not a dict.  (The static
configuration dicts have no duplicate keys, so first-binding lookup agrees with
Python's last-wins literal semantics.) -/
def JValue.get (v : JValue) (k : String) : Option JValue :=
  match v with
  | .obj fields => (fields.find? (fun kv => kv.1 == k)).map (fun kv => kv.2)
  | _ => none

/-- Python truthiness of a JSON value: `None`, `False`, `0`, `""`, `[]`, and
`{}` are falsy, everything else truthy.  Used by `if monitor_id:`. -/
def JValue.truthy : JValue → Bool
  | .null => false
  | .bool b => b
  | .num n => n != 0
  | .str s => !s.isEmpty
  | .arr xs => !xs.isEmpty
  | .obj fs => !fs.isEmpty

mutual

/-- Python `str()` of a JSON value, as interpolated by an f-string:
scalars print bare, collections print in Python literal style. -/
def pyStr : JValue → String
  | .null => "None"
  | .bool true => "True"
  | .bool false => "False"
  | .num n => toString n
  | .str s => s
  | .arr xs => "[" ++ pyStrList xs ++ "]"
  | .obj fs => "\x7b" ++ pyStrFields fs ++ "\x7d"

/-- Comma-separated rendering of a JSON array's elements. -/
def pyStrList : List JValue → String
  | [] => ""
  | [x] => pyStr x
  | x :: xs => pyStr x ++ ", " ++ pyStrList xs

/-- Comma-separated rendering of a JSON object's bindings. -/
def pyStrFields : List (String × JValue) → String
  | [] => ""
  | [kv] => "\x27" ++ kv.1 ++ "\x27: " ++ pyStr kv.2
  | kv :: kvs => "\x27" ++ kv.1 ++ "\x27: " ++ pyStr kv.2 ++ ", " ++ pyStrFields kvs

end

/-- Python truthiness of an optional environment string (`os.getenv` result):
unset (`None`) and the empty string are falsy.  Used by
`if not DD_API_KEY or not DD_APP_KEY`. -/
def pyTruthy : Option String → Bool
  | none => false
  | some s => !s.isEmpty

/-- An HTTP response as the scripts observe it: `status_code`, the parsed JSON
body returned by `.json()`, and the raw body text `.text`. -/
structure Response : Type where
  status_code : Nat
  jsonBody : JValue
  text : String

/-- One POST request issued by a submitter: target URL and JSON payload. -/
structure Request : Type where
  url : String
  payload : JValue

/-- An uncaught Python fault reachable in the embedded fragment: a failed
dictionary lookup (`KeyError`). -/
inductive Fault : Type where
  | keyError : Fault

/-- The observable outcome of running a code fragment: the POST requests it
issued (in order), the lines it printed to standard output (in order), and
either a normal value or an uncaught fault that aborted it. -/
structure Run (α : Type) : Type where
  calls : List Request
  output : List String
  result : Except Fault α

/-- `DD_SITE = os.getenv('DD_SITE', 'datadoghq.com')`. -/
def DD_SITE (env : Option String) : String :=
  env.getD "datadoghq.com"

/-- `BASE_URL = f"https://api.{DD_SITE}"`. -/
def BASE_URL (site : String) : String :=
  "https://api." ++ site

/-- `create_monitor(monitor_config)` from `create-datadog-monitors.py`, given
the response its single POST to `/api/v1/monitor` receives.  On 200 it prints
the success f-string (which looks up `monitor_config['name']`) and returns
`monitor['id']` — both lookups unguarded, so a missing key is a `KeyError`
fault.  On any other status it prints the failure f-string with the numeric
status code, prints `response.text`, and returns `None`. -/
def create_monitor (site : String) (monitor_config : JValue) (response : Response) :
    Run (Option JValue) :=
  let url := BASE_URL site ++ "/api/v1/monitor"
  let call : Request := ⟨url, monitor_config⟩
  if response.status_code == 200 then
    match monitor_config.get "name" with
    | none => ⟨[call], [], Except.error Fault.keyError⟩
    | some nm =>
      match response.jsonBody.get "id" with
      | some i =>
          ⟨[call], ["✅ Monitor created: " ++ pyStr nm], Except.ok (some i)⟩
      | none =>
          ⟨[call], ["✅ Monitor created: " ++ pyStr nm], Except.error Fault.keyError⟩
  else
    match monitor_config.get "name" with
    | none => ⟨[call], [], Except.error Fault.keyError⟩
    | some nm =>
        ⟨[call],
         ["❌ Failed to create monitor \x27" ++ pyStr nm ++ "\x27: " ++
            toString response.status_code,
          response.text],
         Except.ok none⟩

/-- The loop body of `create_all_monitors` with its `created_monitors`
accumulator made explicit: walk the remaining `(monitor_config, response)`
pairs, appending each returned id that passes `if monitor_id:` (Python
truthiness), and after the last item print the aggregate
`f"\n✅ Created {len(created_monitors)} monitors successfully!"` line and
return the accumulated list.  A fault inside `create_monitor` aborts the loop,
keeping the trace of what was already done. -/
def create_all_monitors_go (site : String) (created_monitors : List JValue) :
    List (JValue × Response) → Run (List JValue)
  | [] =>
      ⟨[],
       ["\n✅ Created " ++ toString created_monitors.length ++ " monitors successfully!"],
       Except.ok created_monitors⟩
  | (monitor_config, response) :: rest =>
      let r := create_monitor site monitor_config response
      match r.result with
      | Except.error f => ⟨r.calls, r.output, Except.error f⟩
      | Except.ok monitor_id =>
        let created2 :=
          match monitor_id with
          | some v => if v.truthy then created_monitors ++ [v] else created_monitors
          | none => created_monitors
        let rest_run := create_all_monitors_go site created2 rest
        ⟨r.calls ++ rest_run.calls, r.output ++ rest_run.output, rest_run.result⟩

/-- `create_all_monitors()` from `create-datadog-monitors.py`, generalised over
the monitor sequence it walks and the response each submission receives. -/
def create_all_monitors (site : String) (items : List (JValue × Response)) :
    Run (List JValue) :=
  create_all_monitors_go site [] items

/-- `create_dashboard()` from `create-datadog-dashboard.py`, given the payload
it posts and the response its single POST to `/api/v1/dashboard` receives.  On
200 it prints the success line, then prints the viewer URL f-string (whose
`dashboard['id']` lookup is unguarded — a missing `id` is a `KeyError` fault
after the first print), and returns the id.  On any other status it prints the
failure f-string with the numeric status code, prints `response.text`, and
returns `None`. -/
def create_dashboard (site : String) (dashboard_cfg : JValue) (response : Response) :
    Run (Option JValue) :=
  let url := BASE_URL site ++ "/api/v1/dashboard"
  let call : Request := ⟨url, dashboard_cfg⟩
  if response.status_code == 200 then
    match response.jsonBody.get "id" with
    | some i =>
        ⟨[call],
         ["✅ Dashboard created successfully!",
          "Dashboard URL: https://app." ++ site ++ "/dashboard/" ++ pyStr i],
         Except.ok (some i)⟩
    | none =>
        ⟨[call], ["✅ Dashboard created successfully!"], Except.error Fault.keyError⟩
  else
    ⟨[call],
     ["❌ Failed to create dashboard: " ++ toString response.status_code,
      response.text],
     Except.ok none⟩

/-- The fixed error message both `__main__` blocks print when a required
credential is missing. -/
def credsErrorMsg : String :=
  "❌ Please set DD_API_KEY and DD_APP_KEY environment variables"

/-- The static `monitors` list from `create-datadog-monitors.py`: five
hard-coded monitor definition dicts (`{` and `}` inside string literals are
written `\x7b` and `\x7d`). -/
def monitors : List JValue :=
  [JValue.obj
    [("name", JValue.str "[Drone Mission] High Telemetry Latency"),
     ("type", JValue.str "metric alert"),
     ("query", JValue.str "avg(last_5m):avg:drone_mission.telemetry.latency\x7b*\x7d > 500"),
     ("message", JValue.str "🚨 **High Telemetry Latency Alert**\n\nTelemetry latency is above 500ms. This may indicate:\n- Network connectivity issues\n- Processing bottlenecks\n- Kafka consumer lag\n\n**Current latency**: \x7b\x7bvalue\x7d\x7dms\n**Threshold**: 500ms\n\n@slack-drone-alerts @webhook-pagerduty"),
     ("tags", JValue.arr
       [JValue.str "service:drone-mission-backend",
        JValue.str "team:drone-ops",
        JValue.str "severity:high"]),
     ("options", JValue.obj
       [("thresholds", JValue.obj
         [("critical", JValue.num 500),
          ("warning", JValue.num 300)]),
        ("notify_audit", JValue.bool false),
        ("require_full_window", JValue.bool true),
        ("notify_no_data", JValue.bool true),
        ("no_data_timeframe", JValue.num 10)])],
   JValue.obj
    [("name", JValue.str "[Drone Mission] Command Timeout Rate High"),
     ("type", JValue.str "metric alert"),
     ("query", JValue.str "sum(last_10m):sum:drone_mission.drone.command_timeout\x7b*\x7d.as_count() / sum:drone_mission.drone.command_sent\x7b*\x7d.as_count() * 100 > 10"),
     ("message", JValue.str "🚨 **Command Timeout Rate Alert**\n\nCommand timeout rate is above 10%. Drones may be experiencing connectivity issues.\n\n**Current rate**: \x7b\x7bvalue\x7d\x7d%\n**Threshold**: 10%\n\n**Immediate Actions**:\n1. Check MQTT broker status\n2. Verify drone connectivity\n3. Review network conditions\n\n@pagerduty-drone-ops @slack-drone-alerts"),
     ("tags", JValue.arr
       [JValue.str "service:drone-mission-backend",
        JValue.str "team:drone-ops",
        JValue.str "severity:critical"]),
     ("options", JValue.obj
       [("thresholds", JValue.obj
         [("critical", JValue.num 10),
          ("warning", JValue.num 5)])])],
   JValue.obj
    [("name", JValue.str "[Drone Mission] Multiple Low Battery Drones"),
     ("type", JValue.str "metric alert"),
     ("query", JValue.str "sum(last_5m):sum:drone_mission.drone.battery_low\x7b*\x7d.as_count() > 3"),
     ("message", JValue.str "⚠️ **Multiple Low Battery Alert**\n\n\x7b\x7bvalue\x7d\x7d drones are reporting low battery levels.\n\n**Actions Required**:\n- Review active missions\n- Prepare backup drones\n- Consider mission prioritization\n\n@slack-drone-alerts"),
     ("tags", JValue.arr
       [JValue.str "service:drone-mission-backend",
        JValue.str "team:drone-ops"]),
     ("options", JValue.obj
       [("thresholds", JValue.obj
         [("critical", JValue.num 3),
          ("warning", JValue.num 2)])])],
   JValue.obj
    [("name", JValue.str "[Drone Mission] API Error Rate High"),
     ("type", JValue.str "metric alert"),
     ("query", JValue.str "sum(last_5m):sum:drone_mission.api.error_count\x7b*\x7d.as_count() / sum:drone_mission.api.request_count\x7b*\x7d.as_count() * 100 > 5"),
     ("message", JValue.str "🚨 **API Error Rate Alert**\n\nAPI error rate is above 5%.\n\n**Current rate**: \x7b\x7bvalue\x7d\x7d%\n**Threshold**: 5%\n\nCheck application logs and system health.\n\n@slack-drone-alerts"),
     ("tags", JValue.arr
       [JValue.str "service:drone-mission-backend",
        JValue.str "team:drone-ops"]),
     ("options", JValue.obj
       [("thresholds", JValue.obj
         [("critical", JValue.num 5),
          ("warning", JValue.num 2)])])],
   JValue.obj
    [("name", JValue.str "[Drone Mission] Mission Failure Rate High"),
     ("type", JValue.str "metric alert"),
     ("query", JValue.str "sum(last_1h):sum:drone_mission.mission.failed\x7b*\x7d.as_count() / (sum:drone_mission.mission.completed\x7b*\x7d.as_count() + sum:drone_mission.mission.failed\x7b*\x7d.as_count()) * 100 > 10"),
     ("message", JValue.str "🚨 **Mission Failure Rate Alert**\n\nMission failure rate is above 10% in the last hour.\n\n**Current rate**: \x7b\x7bvalue\x7d\x7d%\n**Failed missions**: \x7b\x7bthreshold\x7d\x7d\n\n**Investigation Required**:\n- Review failure reasons\n- Check environmental conditions\n- Verify drone maintenance status\n\n@pagerduty-drone-ops @slack-drone-alerts"),
     ("tags", JValue.arr
       [JValue.str "service:drone-mission-backend",
        JValue.str "team:drone-ops",
        JValue.str "severity:critical"]),
     ("options", JValue.obj
       [("thresholds", JValue.obj
         [("critical", JValue.num 10),
          ("warning", JValue.num 5)])])]]

/-- The `__main__` block of `create-datadog-monitors.py`: check the two
credential values for Python truthiness; if either is falsy print the fixed
error and `exit(1)`, otherwise run `create_all_monitors()` over the static
`monitors` list (each submission receiving the oracle's response for its
config) and complete normally (exit status 0).  The normal result is the
process exit status. -/
def monitors_main (dd_api_key dd_app_key dd_site_env : Option String)
    (net : JValue → Response) : Run Nat :=
  if !(pyTruthy dd_api_key) || !(pyTruthy dd_app_key) then
    ⟨[], [credsErrorMsg], Except.ok 1⟩
  else
    let r := create_all_monitors (DD_SITE dd_site_env) (monitors.map (fun m => (m, net m)))
    ⟨r.calls, r.output,
     match r.result with
     | Except.ok _ => Except.ok 0
     | Except.error f => Except.error f⟩

/-- The ids the monitor loop collects, read off the oracle directly: for each
`(monitor_config, response)` pair in input order, the response's `id` value
when the status is 200 and that value is Python-truthy. -/
def collectedIds : List (JValue × Response) → List JValue
  | [] => []
  | p :: rest =>
    if p.2.status_code == 200 then
      match JValue.get p.2.jsonBody "id" with
      | some v => if v.truthy then v :: collectedIds rest else collectedIds rest
      | none => collectedIds rest
    else collectedIds rest

/-- Whether one `(monitor_config, response)` pair is counted by the monitor
loop: HTTP 200 and a Python-truthy `id` in the body. -/
def collectedP (p : JValue × Response) : Bool :=
  p.2.status_code == 200 &&
    (match JValue.get p.2.jsonBody "id" with
     | some v => v.truthy
     | none => false)

/-- The per-item lines printed by the monitor loop, in input order. -/
def monitorOutputs (site : String) : List (JValue × Response) → List String
  | [] => []
  | p :: rest => (create_monitor site p.1 p.2).output ++ monitorOutputs site rest

/-- `options.thresholds.warning <= options.thresholds.critical` for one
monitor definition dict (false when the path or the numbers are absent). -/
def thresholds_ok (m : JValue) : Bool :=
  match m.get "options" with
  | some o =>
    match o.get "thresholds" with
    | some t =>
      match t.get "warning", t.get "critical" with
      | some (JValue.num w), some (JValue.num c) => decide (w ≤ c)
      | _, _ => false
    | none => false
  | none => false

/-- Five responses, one per static monitor: all HTTP 200, but the third one
carries the falsy id `0`. -/
def cexResponses : List Response :=
  [⟨200, JValue.obj [("id", JValue.num 101)], ""⟩,
   ⟨200, JValue.obj [("id", JValue.num 102)], ""⟩,
   ⟨200, JValue.obj [("id", JValue.num 0)], ""⟩,
   ⟨200, JValue.obj [("id", JValue.num 104)], ""⟩,
   ⟨200, JValue.obj [("id", JValue.num 105)], ""⟩]

/-- The five static monitors paired with `cexResponses`. -/
def cexItems : List (JValue × Response) :=
  monitors.zip cexResponses

/-- A two-item batch: one remote rejection, then one success with id `42`. -/
def wItems : List (JValue × Response) :=
  [(JValue.obj [("name", JValue.str "monitor A")], ⟨403, JValue.null, "Forbidden"⟩),
   (JValue.obj [("name", JValue.str "monitor B")], ⟨200, JValue.obj [("id", JValue.num 42)], ""⟩)]

/-- Five responses for the static monitors with remote rejections at positions
1 and 3 (1-based) and successes elsewhere. -/
def w5Responses : List Response :=
  [⟨403, JValue.null, "Forbidden"⟩,
   ⟨200, JValue.obj [("id", JValue.num 201)], ""⟩,
   ⟨403, JValue.null, "Forbidden"⟩,
   ⟨200, JValue.obj [("id", JValue.num 203)], ""⟩,
   ⟨200, JValue.obj [("id", JValue.num 204)], ""⟩]

/-- The five static monitors paired with `w5Responses`. -/
def w5Items : List (JValue × Response) :=
  monitors.zip w5Responses

/-- The static `dashboard_config` dict from `create-datadog-dashboard.py`:
title, description, seven widgets (each with numeric `id`, a typed `definition`
payload, and a `layout` rectangle), plus layout/visibility/template-variable
metadata (`{` and `}` inside string literals are written `\x7b` and `\x7d`). -/
def dashboard_config : JValue :=
  JValue.obj
   [("title", JValue.str "🚁 Drone Mission Operations"),
    ("description", JValue.str "Real-time monitoring of drone missions, fleet status, and system performance"),
    ("widgets", JValue.arr
      [JValue.obj
        [("id", JValue.num 1),
         ("definition", JValue.obj
           [("type", JValue.str "query_value"),
            ("requests", JValue.arr
              [JValue.obj
                [("q", JValue.str "sum:drone_mission.mission.active\x7b*\x7d"),
                 ("aggregator", JValue.str "last")]]),
            ("title", JValue.str "Active Missions"),
            ("title_size", JValue.str "16"),
            ("title_align", JValue.str "left"),
            ("precision", JValue.num 0)]),
         ("layout", JValue.obj
           [("x", JValue.num 0), ("y", JValue.num 0),
            ("width", JValue.num 2), ("height", JValue.num 2)])],
       JValue.obj
        [("id", JValue.num 2),
         ("definition", JValue.obj
           [("type", JValue.str "timeseries"),
            ("requests", JValue.arr
              [JValue.obj
                [("q", JValue.str "sum:drone_mission.telemetry.received\x7b*\x7d.as_rate()"),
                 ("display_type", JValue.str "line"),
                 ("style", JValue.obj
                   [("palette", JValue.str "dog_classic"),
                    ("line_type", JValue.str "solid"),
                    ("line_width", JValue.str "normal")])]]),
            ("title", JValue.str "Telemetry Messages/sec"),
            ("title_size", JValue.str "16"),
            ("title_align", JValue.str "left"),
            ("yaxis", JValue.obj
              [("scale", JValue.str "linear"),
               ("min", JValue.str "auto"),
               ("max", JValue.str "auto")])]),
         ("layout", JValue.obj
           [("x", JValue.num 2), ("y", JValue.num 0),
            ("width", JValue.num 4), ("height", JValue.num 2)])],
       JValue.obj
        [("id", JValue.num 3),
         ("definition", JValue.obj
           [("type", JValue.str "timeseries"),
            ("requests", JValue.arr
              [JValue.obj
                [("q", JValue.str "p95:drone_mission.telemetry.latency\x7b*\x7d"),
                 ("display_type", JValue.str "line")],
               JValue.obj
                [("q", JValue.str "p50:drone_mission.telemetry.latency\x7b*\x7d"),
                 ("display_type", JValue.str "line")]]),
            ("title", JValue.str "Telemetry Latency (p95/p50)"),
            ("title_size", JValue.str "16"),
            ("yaxis", JValue.obj
              [("scale", JValue.str "linear"),
               ("unit", JValue.str "millisecond")])]),
         ("layout", JValue.obj
           [("x", JValue.num 6), ("y", JValue.num 0),
            ("width", JValue.num 4), ("height", JValue.num 2)])],
       JValue.obj
        [("id", JValue.num 4),
         ("definition", JValue.obj
           [("type", JValue.str "toplist"),
            ("requests", JValue.arr
              [JValue.obj
                [("q", JValue.str "sum:drone_mission.drone.status\x7b*\x7d by \x7bstatus\x7d"),
                 ("style", JValue.obj
                   [("palette", JValue.str "dog_classic")])]]),
            ("title", JValue.str "Fleet Status Distribution")]),
         ("layout", JValue.obj
           [("x", JValue.num 10), ("y", JValue.num 0),
            ("width", JValue.num 2), ("height", JValue.num 2)])],
       JValue.obj
        [("id", JValue.num 5),
         ("definition", JValue.obj
           [("type", JValue.str "timeseries"),
            ("requests", JValue.arr
              [JValue.obj
                [("q", JValue.str "sum:drone_mission.api.request_count\x7b*\x7d.as_rate() by \x7bpath\x7d"),
                 ("display_type", JValue.str "line")]]),
            ("title", JValue.str "API Request Rate by Endpoint")]),
         ("layout", JValue.obj
           [("x", JValue.num 0), ("y", JValue.num 2),
            ("width", JValue.num 6), ("height", JValue.num 2)])],
       JValue.obj
        [("id", JValue.num 6),
         ("definition", JValue.obj
           [("type", JValue.str "query_value"),
            ("requests", JValue.arr
              [JValue.obj
                [("q", JValue.str "sum:drone_mission.drone.command_ack\x7b*\x7d.as_count() / sum:drone_mission.drone.command_sent\x7b*\x7d.as_count() * 100"),
                 ("aggregator", JValue.str "last")]]),
            ("title", JValue.str "Command Success Rate (%)"),
            ("precision", JValue.num 1)]),
         ("layout", JValue.obj
           [("x", JValue.num 6), ("y", JValue.num 2),
            ("width", JValue.num 3), ("height", JValue.num 2)])],
       JValue.obj
        [("id", JValue.num 7),
         ("definition", JValue.obj
           [("type", JValue.str "heatmap"),
            ("requests", JValue.arr
              [JValue.obj
                [("q", JValue.str "avg:drone_mission.mission.duration\x7b*\x7d by \x7bsite_id\x7d")]]),
            ("title", JValue.str "Mission Duration by Site")]),
         ("layout", JValue.obj
           [("x", JValue.num 9), ("y", JValue.num 2),
            ("width", JValue.num 3), ("height", JValue.num 2)])]]),
    ("layout_type", JValue.str "ordered"),
    ("is_read_only", JValue.bool false),
    ("notify_list", JValue.arr []),
    ("template_variables", JValue.arr
      [JValue.obj
        [("name", JValue.str "site"),
         ("prefix", JValue.str "site_id"),
         ("available_values", JValue.arr []),
         ("default", JValue.str "*")]])]

/-- The `id` field of every widget in `dashboard_config`'s widget sequence,
in order. -/
def widgetIdNums : List Int :=
  match dashboard_config.get "widgets" with
  | some (JValue.arr ws) =>
      ws.filterMap (fun w =>
        match w.get "id" with
        | some (JValue.num n) => some n
        | _ => none)
  | _ => []

/-- The `__main__` block of `create-datadog-dashboard.py`: check the two
credential values for Python truthiness; if either is falsy print the fixed
error and `exit(1)`, otherwise run `create_dashboard()` once with the static
`dashboard_config` against the oracle's response and complete normally (exit
status 0).  The normal result is the process exit status. -/
def dashboard_main (dd_api_key dd_app_key dd_site_env : Option String)
    (response : Response) : Run Nat :=
  if !(pyTruthy dd_api_key) || !(pyTruthy dd_app_key) then
    ⟨[], [credsErrorMsg], Except.ok 1⟩
  else
    let r := create_dashboard (DD_SITE dd_site_env) dashboard_config response
    ⟨r.calls, r.output,
     match r.result with
     | Except.ok _ => Except.ok 0
     | Except.error f => Except.error f⟩


/-- `create_monitor` on HTTP 200 with a named config and a body carrying an
`id`: one call, the success line, the id returned. -/
lemma create_monitor_200_eq (site : String) (cfg : JValue) (resp : Response)
    (nm i : JValue) (hs : resp.status_code = 200)
    (hn : JValue.get cfg "name" = some nm)
    (hi : JValue.get resp.jsonBody "id" = some i) :
    create_monitor site cfg resp =
      ⟨[⟨BASE_URL site ++ "/api/v1/monitor", cfg⟩],
       ["✅ Monitor created: " ++ pyStr nm],
       Except.ok (some i)⟩ := by
  simp [create_monitor, hs, hn, hi]

/-- `create_monitor` on a non-200 status with a named config: one call, the
failure line with the numeric status code, the raw body text, `None`
returned. -/
lemma create_monitor_fail_eq (site : String) (cfg : JValue) (resp : Response)
    (nm : JValue) (hs : resp.status_code ≠ 200)
    (hn : JValue.get cfg "name" = some nm) :
    create_monitor site cfg resp =
      ⟨[⟨BASE_URL site ++ "/api/v1/monitor", cfg⟩],
       ["❌ Failed to create monitor \x27" ++ pyStr nm ++ "\x27: " ++
          toString resp.status_code,
        resp.text],
       Except.ok none⟩ := by
  have h2 : (resp.status_code == 200) = false := by
    simpa using hs
  simp [create_monitor, h2, hn]

/-- Characterisation of the monitor loop when every config has a `name` and
every 200 response body has an `id` (so no `KeyError` is reachable): one POST
per item, the per-item lines followed by the aggregate line, and the
accumulator extended by the truthy ids in input order. -/
lemma create_all_monitors_go_spec (site : String) (items : List (JValue × Response))
    (h1 : ∀ p ∈ items, (JValue.get p.1 "name").isSome = true)
    (h2 : ∀ p ∈ items, p.2.status_code = 200 → (JValue.get p.2.jsonBody "id").isSome = true) :
    ∀ acc : List JValue,
      create_all_monitors_go site acc items =
        ⟨items.map (fun p => ⟨BASE_URL site ++ "/api/v1/monitor", p.1⟩),
         monitorOutputs site items ++
           ["\n✅ Created " ++ toString (acc ++ collectedIds items).length ++
              " monitors successfully!"],
         Except.ok (acc ++ collectedIds items)⟩ := by
  induction items with
  | nil =>
    intro acc
    simp [create_all_monitors_go, collectedIds, monitorOutputs]
  | cons p rest ih =>
    intro acc
    obtain ⟨cfg, resp⟩ := p
    obtain ⟨nm, hn⟩ := Option.isSome_iff_exists.mp
      (h1 (cfg, resp) (List.mem_cons_self _ _))
    have ih' := ih (fun q hq => h1 q (List.mem_cons_of_mem _ hq))
      (fun q hq => h2 q (List.mem_cons_of_mem _ hq))
    by_cases hs : resp.status_code = 200
    · obtain ⟨i, hi⟩ := Option.isSome_iff_exists.mp
        (h2 (cfg, resp) (List.mem_cons_self _ _) hs)
      have hm := create_monitor_200_eq site cfg resp nm i hs hn hi
      by_cases ht : i.truthy = true
      · simp [create_all_monitors_go, hm, ih', collectedIds, monitorOutputs,
          hs, hi, ht]
      · simp [create_all_monitors_go, hm, ih', collectedIds, monitorOutputs,
          hs, hi, ht]
    · have hm := create_monitor_fail_eq site cfg resp nm hs hn
      have hsb : (resp.status_code == 200) = false := by simpa using hs
      simp [create_all_monitors_go, hm, ih', collectedIds, monitorOutputs, hsb]

/-- The number of truthy collected ids equals the number of items whose
response is HTTP 200 with a truthy `id` value. -/
lemma collectedIds_length_eq_filter (items : List (JValue × Response)) :
    (collectedIds items).length = (items.filter collectedP).length := by
  induction items with
  | nil => rfl
  | cons p rest ih =>
    by_cases hs : (p.2.status_code == 200) = true
    · rcases hj : JValue.get p.2.jsonBody "id" with _ | v
      · simp [collectedIds, collectedP, hs, hj, List.filter_cons, ih]
      · by_cases ht : v.truthy = true
        · simp [collectedIds, collectedP, hs, hj, ht, List.filter_cons, ih]
        · simp [collectedIds, collectedP, hs, hj, ht, List.filter_cons, ih]
    · simp [collectedIds, collectedP, hs, List.filter_cons, ih]

/-- C1 (amended): for every monitor sequence in which every definition has a
`name` and every HTTP 200 response body has an `id` field, `create_all_monitors`
returns exactly the ids of the items whose response is HTTP 200 with a
Python-truthy `id`, in input order (so the returned sequence has length K and
preserves relative order, where K counts those items), and the aggregate line it
prints reports that same K.  (The unamended claim, with K counting all HTTP 200
responses, fails when a 200 body carries a falsy id such as `0` — see the
counterexample.) -/
theorem create_all_monitors_reports_truthy_id_count (site : String)
    (items : List (JValue × Response))
    (h1 : ∀ p ∈ items, (JValue.get p.1 "name").isSome = true)
    (h2 : ∀ p ∈ items, p.2.status_code = 200 →
      (JValue.get p.2.jsonBody "id").isSome = true) :
    (create_all_monitors site items).result = Except.ok (collectedIds items) ∧
    (create_all_monitors site items).output =
      monitorOutputs site items ++
        ["\n✅ Created " ++ toString (collectedIds items).length ++
           " monitors successfully!"] ∧
    (collectedIds items).length = (items.filter collectedP).length := by
  have h := create_all_monitors_go_spec site items h1 h2 []
  rw [create_all_monitors, h]
  exact ⟨by simp, by simp, collectedIds_length_eq_filter items⟩

/-- C1 counterexample: running the five static monitors against five HTTP 200
responses (the third carrying the falsy id `0`) gives K = 5 successful
submissions, yet the loop collects only four ids and prints "Created 4", so the
claim as stated (count equal to K, id sequence of length K) is false. -/
theorem create_all_monitors_count_mismatch_cex :
    (cexItems.filter (fun p => p.2.status_code == 200)).length = 5 ∧
    (create_all_monitors "datadoghq.com" cexItems).result =
      Except.ok [JValue.num 101, JValue.num 102, JValue.num 104, JValue.num 105] ∧
    (create_all_monitors "datadoghq.com" cexItems).output.getLast? =
      some "\n✅ Created 4 monitors successfully!" :=
  ⟨rfl, rfl, rfl⟩

/-- C1 witness: the amended theorem applied to a concrete two-item batch (one
rejection, one success with id 42). -/
theorem create_all_monitors_reports_truthy_id_count_witness :
    (create_all_monitors "datadoghq.com" wItems).result =
      Except.ok (collectedIds wItems) ∧
    (create_all_monitors "datadoghq.com" wItems).output =
      monitorOutputs "datadoghq.com" wItems ++
        ["\n✅ Created " ++ toString (collectedIds wItems).length ++
           " monitors successfully!"] ∧
    (collectedIds wItems).length = (wItems.filter collectedP).length :=
  create_all_monitors_reports_truthy_id_count "datadoghq.com" wItems
    (by decide) (by decide)

/-- C5: whatever the per-item outcomes (any mix of HTTP 200 with an id and
remote rejections), the monitor loop issues exactly one POST per definition, in
order, each carrying that definition as payload — no rejection prevents or
alters the remaining submission attempts. -/
theorem create_all_monitors_attempts_every_definition (site : String)
    (items : List (JValue × Response))
    (h1 : ∀ p ∈ items, (JValue.get p.1 "name").isSome = true)
    (h2 : ∀ p ∈ items, p.2.status_code = 200 →
      (JValue.get p.2.jsonBody "id").isSome = true) :
    (create_all_monitors site items).calls =
      items.map (fun p => ⟨BASE_URL site ++ "/api/v1/monitor", p.1⟩) ∧
    (create_all_monitors site items).calls.length = items.length := by
  have h := create_all_monitors_go_spec site items h1 h2 []
  rw [create_all_monitors, h]
  simp

/-- C5 witness: the five static monitors with rejections at positions 1 and 3
still produce five POSTs, one per definition. -/
theorem create_all_monitors_attempts_every_definition_witness :
    (create_all_monitors "datadoghq.com" w5Items).calls =
      w5Items.map (fun p => ⟨BASE_URL "datadoghq.com" ++ "/api/v1/monitor", p.1⟩) ∧
    (create_all_monitors "datadoghq.com" w5Items).calls.length = w5Items.length :=
  create_all_monitors_attempts_every_definition "datadoghq.com" w5Items
    (by decide) (by decide)

/-- C2: when either required credential is absent from the environment, both
scripts issue zero network calls, print exactly the fixed error message, and
terminate with exit status 1. -/
theorem missing_credentials_abort (dd_api_key dd_app_key dd_site_env : Option String)
    (net : JValue → Response) (response : Response)
    (h : dd_api_key = none ∨ dd_app_key = none) :
    monitors_main dd_api_key dd_app_key dd_site_env net =
      ⟨[], [credsErrorMsg], Except.ok 1⟩ ∧
    dashboard_main dd_api_key dd_app_key dd_site_env response =
      ⟨[], [credsErrorMsg], Except.ok 1⟩ := by
  have hc : (!(pyTruthy dd_api_key) || !(pyTruthy dd_app_key)) = true := by
    rcases h with h | h <;> subst h <;> simp [pyTruthy]
  constructor
  · simp [monitors_main, hc]
  · simp [dashboard_main, hc]

/-- C2 witness: with `DD_API_KEY` unset (and `DD_APP_KEY` set), both entry
points print the fixed error and exit 1 without any call. -/
theorem missing_credentials_abort_witness :
    monitors_main none (some "appkey") none
        (fun _ => ⟨200, JValue.obj [("id", JValue.num 1)], ""⟩) =
      ⟨[], [credsErrorMsg], Except.ok 1⟩ ∧
    dashboard_main none (some "appkey") none ⟨200, JValue.obj [("id", JValue.num 1)], ""⟩ =
      ⟨[], [credsErrorMsg], Except.ok 1⟩ :=
  missing_credentials_abort none (some "appkey") none
    (fun _ => ⟨200, JValue.obj [("id", JValue.num 1)], ""⟩)
    ⟨200, JValue.obj [("id", JValue.num 1)], ""⟩ (Or.inl rfl)

/-- C3: on any non-200 status, each submitter prints a failure line carrying
the numeric status code, prints the raw response body text, returns `None`
(an `Except.ok` absence value, never a fault), after its single POST. -/
theorem non_200_logged_and_absent (site : String) (cfg dcfg nm : JValue)
    (resp : Response) (hs : resp.status_code ≠ 200)
    (hn : JValue.get cfg "name" = some nm) :
    create_monitor site cfg resp =
      ⟨[⟨BASE_URL site ++ "/api/v1/monitor", cfg⟩],
       ["❌ Failed to create monitor \x27" ++ pyStr nm ++ "\x27: " ++
          toString resp.status_code,
        resp.text],
       Except.ok none⟩ ∧
    create_dashboard site dcfg resp =
      ⟨[⟨BASE_URL site ++ "/api/v1/dashboard", dcfg⟩],
       ["❌ Failed to create dashboard: " ++ toString resp.status_code,
        resp.text],
       Except.ok none⟩ := by
  have h2 : (resp.status_code == 200) = false := by simpa using hs
  exact ⟨create_monitor_fail_eq site cfg resp nm hs hn,
    by simp [create_dashboard, h2]⟩

/-- C3 witness: an HTTP 403 with body "Forbidden" is logged with the code 403
and the body text, and both submitters return the absence value. -/
theorem non_200_logged_and_absent_witness :
    create_monitor "datadoghq.com" (JValue.obj [("name", JValue.str "M")])
        ⟨403, JValue.null, "Forbidden"⟩ =
      ⟨[⟨BASE_URL "datadoghq.com" ++ "/api/v1/monitor",
          JValue.obj [("name", JValue.str "M")]⟩],
       ["❌ Failed to create monitor \x27" ++ pyStr (JValue.str "M") ++ "\x27: " ++
          toString (403 : Nat),
        "Forbidden"],
       Except.ok none⟩ ∧
    create_dashboard "datadoghq.com" dashboard_config ⟨403, JValue.null, "Forbidden"⟩ =
      ⟨[⟨BASE_URL "datadoghq.com" ++ "/api/v1/dashboard", dashboard_config⟩],
       ["❌ Failed to create dashboard: " ++ toString (403 : Nat),
        "Forbidden"],
       Except.ok none⟩ :=
  non_200_logged_and_absent "datadoghq.com" (JValue.obj [("name", JValue.str "M")])
    dashboard_config (JValue.str "M") ⟨403, JValue.null, "Forbidden"⟩
    (by decide) rfl

/-- C4: on HTTP 200 with an `id` field in the parsed JSON body, each submitter
prints its success line (the dashboard one also prints the viewer URL built
from the id) and returns that id to the caller. -/
theorem http_200_returns_id (site : String) (cfg dcfg nm i : JValue)
    (resp : Response) (hs : resp.status_code = 200)
    (hn : JValue.get cfg "name" = some nm)
    (hi : JValue.get resp.jsonBody "id" = some i) :
    create_monitor site cfg resp =
      ⟨[⟨BASE_URL site ++ "/api/v1/monitor", cfg⟩],
       ["✅ Monitor created: " ++ pyStr nm],
       Except.ok (some i)⟩ ∧
    create_dashboard site dcfg resp =
      ⟨[⟨BASE_URL site ++ "/api/v1/dashboard", dcfg⟩],
       ["✅ Dashboard created successfully!",
        "Dashboard URL: https://app." ++ site ++ "/dashboard/" ++ pyStr i],
       Except.ok (some i)⟩ := by
  exact ⟨create_monitor_200_eq site cfg resp nm i hs hn hi,
    by simp [create_dashboard, hs, hi]⟩

/-- C4 witness: a 200 response with body id "abc123" is parsed, reported, and
the id is returned by both submitters. -/
theorem http_200_returns_id_witness :
    create_monitor "datadoghq.com" (JValue.obj [("name", JValue.str "M")])
        ⟨200, JValue.obj [("id", JValue.str "abc123")], ""⟩ =
      ⟨[⟨BASE_URL "datadoghq.com" ++ "/api/v1/monitor",
          JValue.obj [("name", JValue.str "M")]⟩],
       ["✅ Monitor created: " ++ pyStr (JValue.str "M")],
       Except.ok (some (JValue.str "abc123"))⟩ ∧
    create_dashboard "datadoghq.com" dashboard_config
        ⟨200, JValue.obj [("id", JValue.str "abc123")], ""⟩ =
      ⟨[⟨BASE_URL "datadoghq.com" ++ "/api/v1/dashboard", dashboard_config⟩],
       ["✅ Dashboard created successfully!",
        "Dashboard URL: https://app." ++ "datadoghq.com" ++ "/dashboard/" ++
          pyStr (JValue.str "abc123")],
       Except.ok (some (JValue.str "abc123"))⟩ :=
  http_200_returns_id "datadoghq.com" (JValue.obj [("name", JValue.str "M")])
    dashboard_config (JValue.str "M") (JValue.str "abc123")
    ⟨200, JValue.obj [("id", JValue.str "abc123")], ""⟩ rfl rfl rfl

/-- C6: a dashboard submission answered with HTTP 200 and body
`{"id": "abc123"}` under the default site prints the viewer URL exactly as
`https://app.datadoghq.com/dashboard/abc123` (on the "Dashboard URL: " line)
and returns the id. -/
theorem dashboard_viewer_url_default_site :
    (create_dashboard (DD_SITE none) dashboard_config
        ⟨200, JValue.obj [("id", JValue.str "abc123")], ""⟩).output =
      ["✅ Dashboard created successfully!",
       "Dashboard URL: https://app.datadoghq.com/dashboard/abc123"] ∧
    (create_dashboard (DD_SITE none) dashboard_config
        ⟨200, JValue.obj [("id", JValue.str "abc123")], ""⟩).result =
      Except.ok (some (JValue.str "abc123")) :=
  ⟨rfl, rfl⟩

/-- Every static monitor definition carries a `name` key. -/
lemma monitors_have_names :
    ∀ m ∈ monitors, (JValue.get m "name").isSome = true := by decide

/-- C7: with both credentials present, the monitor script's exit status is 0
for every pattern of submission outcomes (each response either non-200 or 200
with an id in its body) — in particular when every submission fails; exit
status 1 is reserved for the missing-credential check. -/
theorem monitors_main_exits_zero (dd_api_key dd_app_key dd_site_env : Option String)
    (net : JValue → Response)
    (ha : pyTruthy dd_api_key = true) (hb : pyTruthy dd_app_key = true)
    (hid : ∀ m ∈ monitors, (net m).status_code = 200 →
      (JValue.get (net m).jsonBody "id").isSome = true) :
    (monitors_main dd_api_key dd_app_key dd_site_env net).result = Except.ok 0 := by
  have h1 : ∀ p ∈ monitors.map (fun m => (m, net m)),
      (JValue.get p.1 "name").isSome = true := by
    intro p hp
    obtain ⟨m, hm, rfl⟩ := List.mem_map.mp hp
    exact monitors_have_names m hm
  have h2 : ∀ p ∈ monitors.map (fun m => (m, net m)),
      p.2.status_code = 200 → (JValue.get p.2.jsonBody "id").isSome = true := by
    intro p hp
    obtain ⟨m, hm, rfl⟩ := List.mem_map.mp hp
    exact hid m hm
  have h := create_all_monitors_go_spec (DD_SITE dd_site_env)
    (monitors.map (fun m => (m, net m))) h1 h2 []
  simp [monitors_main, ha, hb, create_all_monitors, h]

/-- C7 witness: credentials present and every one of the five submissions
rejected with HTTP 403 — the process still exits 0. -/
theorem monitors_main_exits_zero_witness :
    (monitors_main (some "apikey") (some "appkey") none
        (fun _ => ⟨403, JValue.null, "Forbidden"⟩)).result = Except.ok 0 :=
  monitors_main_exits_zero (some "apikey") (some "appkey") none
    (fun _ => ⟨403, JValue.null, "Forbidden"⟩) rfl rfl (by decide)

/-- C8: each of the five hard-coded monitor definitions satisfies
`options.thresholds.warning <= options.thresholds.critical`. -/
theorem monitors_thresholds_warning_le_critical :
    monitors.all thresholds_ok = true := by decide

/-- C9: the widget `id` values of the static dashboard definition are the
sequence 1..7, hence pairwise distinct. -/
theorem dashboard_widget_ids_distinct :
    widgetIdNums = [1, 2, 3, 4, 5, 6, 7] ∧ widgetIdNums.Nodup := by
  exact ⟨rfl, by decide⟩

/-- C10: an HTTP 200 response whose JSON body lacks an `id` field makes both
submitters abort with an uncaught `KeyError` from the unguarded `['id']`
lookup, instead of returning an id or the absence value. -/
theorem http_200_missing_id_faults :
    (create_monitor "datadoghq.com" (JValue.obj [("name", JValue.str "M")])
        ⟨200, JValue.obj [("status", JValue.str "ok")], "ok"⟩).result =
      Except.error Fault.keyError ∧
    (create_dashboard "datadoghq.com" dashboard_config
        ⟨200, JValue.obj [("status", JValue.str "ok")], "ok"⟩).result =
      Except.error Fault.keyError :=
  ⟨rfl, rfl⟩
